import Mathlib

/-!
Shallow embedding of the timed test-attempt lifecycle and scoring core of
the LMS testing portal backend (src/main.py, src/schemas.py).

The MongoDB store is modelled as association lists keyed by id strings.
The store layer (database.py: create_document, get_documents) is not part
of src/; Store.Insert is modelled from the spec, with optional fields that
were never populated kept as Option values (absent key).
-/

/-- Python scalar values, the shape of the Any-typed answer and correct
fields actually exercised by this core (string, int, or None). -/
inductive Value where
  | vstr (s : String)
  | vint (n : Int)
  | vnone
deriving DecidableEq

/-- Python str() on a Value. -/
def pyStr : Value → String
  | .vstr s => s
  | .vint n => toString n
  | .vnone => "None"

/-- Drop leading whitespace characters. -/
def dropW : List Char → List Char
  | [] => []
  | c :: rest => if c.isWhitespace then dropW rest else c :: rest

/-- Python str.strip(): remove whitespace from both ends. -/
def pyStrip (s : String) : String := ⟨(dropW ((dropW s.data).reverse)).reverse⟩

/-- Hex digit test, as accepted by bson ObjectId for string input. -/
def isHexChar (c : Char) : Bool :=
  c.isDigit || (('a' ≤ c) && (c ≤ 'f')) || (('A' ≤ c) && (c ≤ 'F'))

/-- bson ObjectId(s) succeeds on a string exactly when it is 24 hex chars;
otherwise it raises InvalidId. -/
def isValidObjectId (s : String) : Bool :=
  s.length == 24 && s.data.all isHexChar

/-- Python round(q, 2) modelled on rationals. -/
def pyRound2 (q : ℚ) : ℚ := ((⌊q * 100 + 1/2⌋ : ℤ) : ℚ) / 100

/-- Outcomes of a request handler: HTTPException 404, or an unhandled
Python exception (bson InvalidId, KeyError, IndexError). -/
inductive Err where
  | invalidId
  | notFound
  | keyError
  | indexError
deriving DecidableEq

/-- First document whose id matches; Mongo find_one by _id, also dict
lookup by key. -/
def findById : List (String × α) → String → Option α
  | [], _ => none
  | (k, v) :: rest, i => if k = i then some v else findById rest i

/-- Mongo dollar-set of one key in an embedded mapping: replace in place,
or append when absent. -/
def dictSet (k : String) (v : α) : List (String × α) → List (String × α)
  | [] => [(k, v)]
  | (k2, v2) :: rest => if k2 = k then (k, v) :: rest else (k2, v2) :: dictSet k v rest

/-- Remove the entries for a key (used to state frame conditions). -/
def dictErase (k : String) : List (String × α) → List (String × α)
  | [] => []
  | (k2, v2) :: rest => if k2 = k then dictErase k rest else (k2, v2) :: dictErase k rest

/-- Mongo update_one by _id: rewrite the first matching document. -/
def dictUpdate (k : String) (f : α → α) : List (String × α) → List (String × α)
  | [] => []
  | (k2, v) :: rest => if k2 = k then (k2, f v) :: rest else (k2, v) :: dictUpdate k f rest

/-- One module descriptor of a test structure; duration is read with
.get("duration", default). -/
structure ModuleDoc where
  duration : Option Int := none
deriving DecidableEq

/-- One section of a test structure; the modules key is indexed directly
(KeyError when absent). -/
structure SectionDoc where
  modules : Option (List ModuleDoc) := none
deriving DecidableEq

/-- A test structure document; the sections key is indexed directly. -/
structure StructureDoc where
  sections : Option (List (String × SectionDoc)) := none
deriving DecidableEq

/-- A test document; only the structure field is read by this core. The
source field is named structure (a reserved word here). -/
structure Test where
  title : String := ""
  test_structure : Option StructureDoc := none
deriving DecidableEq

/-- A question document; scoring reads only the correct field. The source
fields named section and module are reserved words here. -/
structure Question where
  test_id : String := ""
  section_name : String := "RW"
  module_index : Nat := 1
  number : Nat := 0
  prompt : String := ""
  correct : Value := .vnone
deriving DecidableEq

inductive AttemptStatus where
  | in_progress
  | submitted
deriving DecidableEq

/-- Score embedded in an attempt after submission. -/
structure Score where
  raw : Nat
  total : Nat
  percent : ℚ
deriving DecidableEq

/-- An attempt document (schemas.Attempt, plus the updated_at field that
save_answer writes into the schemaless store). -/
structure Attempt where
  student_id : String
  test_id : String
  status : AttemptStatus := .in_progress
  started_at : Option Nat := none
  submitted_at : Option Nat := none
  timers : List (String × Int) := []
  answers : List (String × Value) := []
  score : Option Score := none
  time_spent : List (String × Int) := []
  updated_at : Option Nat := none
deriving DecidableEq

/-- The collections touched by this core. -/
structure Store where
  tests : List (String × Test) := []
  questions : List (String × Question) := []
  attempts : List (String × Attempt) := []
deriving DecidableEq

/-- The hard-coded default structure of start_attempt (main.py lines
217-222). -/
def defaultStructure : StructureDoc :=
  { sections := some [
      ("RW", { modules := some [{ duration := some 1920 }, { duration := some 1920 }] }),
      ("Math", { modules := some [{ duration := some 2100 }, { duration := some 2100 }] })] }

/-- structure["sections"][sec]["modules"][i].get("duration", dflt):
direct indexing raises KeyError / IndexError when a level is missing. -/
def moduleDuration (sd : StructureDoc) (sec : String) (i : Nat) (dflt : Int) : Except Err Int :=
  match sd.sections with
  | none => .error .keyError
  | some sections =>
    match findById sections sec with
    | none => .error .keyError
    | some secDoc =>
      match secDoc.modules with
      | none => .error .keyError
      | some mods =>
        match mods[i]? with
        | none => .error .indexError
        | some m => .ok (m.duration.getD dflt)

/-- The timers mapping built by start_attempt (main.py lines 217-228),
evaluated in source order RW-1, RW-2, Math-1, Math-2. -/
def resolve_timers (t : Test) : Except Err (List (String × Int)) :=
  let sd := t.test_structure.getD defaultStructure
  match moduleDuration sd "RW" 0 1920 with
  | .error e => .error e
  | .ok a =>
    match moduleDuration sd "RW" 1 1920 with
    | .error e => .error e
    | .ok b =>
      match moduleDuration sd "Math" 0 2100 with
      | .error e => .error e
      | .ok c =>
        match moduleDuration sd "Math" 1 2100 with
        | .error e => .error e
        | .ok d => .ok [("RW-1", a), ("RW-2", b), ("Math-1", c), ("Math-2", d)]

/-- The comparison of main.py line 268: str(ans).strip() == str(correct).strip(). -/
def answerMatches (ans correct : Value) : Bool :=
  pyStrip (pyStr ans) == pyStrip (pyStr correct)

/-- The scoring loop of submit_attempt (main.py lines 261-269): iterate the
answer pairs in order; ObjectId(qid) raises on a malformed key; a missing
question is skipped; otherwise total increments and raw increments on a
trimmed-string match. Accumulators are (total, raw). -/
def scoreLoop (questions : List (String × Question)) :
    List (String × Value) → Nat → Nat → Except Err (Nat × Nat)
  | [], total, raw => .ok (total, raw)
  | (qid, ans) :: rest, total, raw =>
    if isValidObjectId qid then
      match findById questions qid with
      | none => scoreLoop questions rest total raw
      | some q =>
        if answerMatches ans q.correct then scoreLoop questions rest (total + 1) (raw + 1)
        else scoreLoop questions rest (total + 1) raw
    else .error .invalidId

/-- The score dict of main.py lines 270-274. -/
def mkScore (raw total : Nat) : Score :=
  { raw := raw, total := total,
    percent := if total = 0 then 0 else pyRound2 ((raw : ℚ) / (total : ℚ) * 100) }

/-- Scoring of submit_attempt over an answers mapping and the question
collection. -/
def score_answers (questions : List (String × Question))
    (answers : List (String × Value)) : Except Err Score :=
  match scoreLoop questions answers 0 0 with
  | .error e => .error e
  | .ok p => .ok (mkScore p.2 p.1)

/-- The attempt created by start_attempt (main.py line 229): only
student_id, test_id and timers are set; everything else keeps the schema
default. -/
def mkAttempt (student_id test_id : String) (timers : List (String × Int)) : Attempt :=
  { student_id := student_id, test_id := test_id, timers := timers }

/-- POST /student/attempt/start (main.py lines 209-231). ObjectId(test_id)
raises on a malformed id (the discarded find_one of line 212 reads nothing
and has no effect); a missing test is a 404; the structure errors of
resolve_timers propagate; otherwise the new attempt is inserted under the
generated id new_id and (attempt_id, timers) is returned. -/
def start_attempt (s : Store) (test_id student_id new_id : String) :
    Store × Except Err (String × List (String × Int)) :=
  if isValidObjectId test_id then
    match findById s.tests test_id with
    | none => (s, .error .notFound)
    | some t =>
      match resolve_timers t with
      | .error e => (s, .error e)
      | .ok timers =>
        ({ s with attempts := s.attempts ++ [(new_id, mkAttempt student_id test_id timers)] },
         .ok (new_id, timers))
  else (s, .error .invalidId)

/-- find_one({_id: attempt_id, student_id: student_id}): the ownership
filter of main.py lines 244 and 257. -/
def lookupOwned : List (String × Attempt) → String → String → Option Attempt
  | [], _, _ => none
  | (k, a) :: rest, i, sid =>
    if k = i ∧ a.student_id = sid then some a else lookupOwned rest i sid

/-- The partial update applied by save_answer (main.py lines 247-250). -/
def saveF (qid : String) (answer : Value) (time_spent : Int) (now : Nat)
    (a : Attempt) : Attempt :=
  { a with answers := dictSet qid answer a.answers,
           time_spent := dictSet qid time_spent a.time_spent,
           updated_at := some now }

/-- POST /student/attempt/answer (main.py lines 241-251). -/
def save_answer (s : Store) (attempt_id student_id qid : String) (answer : Value)
    (time_spent : Int) (now : Nat) : Store × Except Err Unit :=
  if isValidObjectId attempt_id then
    match lookupOwned s.attempts attempt_id student_id with
    | none => (s, .error .notFound)
    | some _ =>
      ({ s with attempts := dictUpdate attempt_id (saveF qid answer time_spent now) s.attempts },
       .ok ())
  else (s, .error .invalidId)

/-- The partial update applied by submit_attempt (main.py line 275). -/
def submitF (sc : Score) (now : Nat) (a : Attempt) : Attempt :=
  { a with status := .submitted, submitted_at := some now, score := some sc }

/-- POST /student/attempt/submit (main.py lines 254-276). -/
def submit_attempt (s : Store) (attempt_id student_id : String) (now : Nat) :
    Store × Except Err Score :=
  if isValidObjectId attempt_id then
    match lookupOwned s.attempts attempt_id student_id with
    | none => (s, .error .notFound)
    | some att =>
      match score_answers s.questions att.answers with
      | .error e => (s, .error e)
      | .ok sc =>
        ({ s with attempts := dictUpdate attempt_id (submitF sc now) s.attempts }, .ok sc)
  else (s, .error .invalidId)

/-- GET /teacher/reports/{student_id}, summary part (main.py lines
289-298): count and rounded mean of score percents, an absent score read
as 0 via get("score", default).get("percent", 0). -/
def teacher_report (s : Store) (student_id : String) : Nat × ℚ :=
  let atts := (s.attempts.filter (fun p => p.2.student_id == student_id)).map Prod.snd
  (atts.length,
    if atts.length = 0 then 0
    else pyRound2 ((atts.map (fun a => ((a.score.map Score.percent).getD 0))).sum / (atts.length : ℚ)))

deriving instance DecidableEq for Except

/-- The attempts the report aggregates: all documents whose student_id
matches. -/
def studentAttempts (s : Store) (student_id : String) : List Attempt :=
  (s.attempts.filter (fun p => p.2.student_id == student_id)).map Prod.snd

/-- The percent a single attempt contributes to the report mean: its score
percent, or 0 when it has no score. -/
def attemptPercent (a : Attempt) : ℚ :=
  match a.score with
  | none => 0
  | some sc => sc.percent

/-- The score-iff-submitted invariant over every attempt of a store. -/
def InvB (s : Store) : Bool :=
  s.attempts.all (fun p => p.2.score.isSome == decide (p.2.status = AttemptStatus.submitted))

/-- Status only moves forward between two stores: an attempt submitted in
the first is still submitted wherever it is found in the second. -/
def ForwardB (s s2 : Store) : Bool :=
  s.attempts.all (fun p =>
    !(decide (p.2.status = AttemptStatus.submitted)) ||
    (match findById s2.attempts p.1 with
     | none => true
     | some b => decide (b.status = AttemptStatus.submitted)))

/-- One request of the attempt lifecycle. The generated id of a start is
fresh, as Mongo generated ObjectIds are unique. -/
inductive Step : Store → Store → Prop where
  | start (s : Store) (test_id student_id new_id : String)
      (hfresh : new_id ∉ s.attempts.map Prod.fst) :
      Step s (start_attempt s test_id student_id new_id).1
  | save (s : Store) (attempt_id student_id qid : String) (ans : Value) (tsp : Int) (now : Nat) :
      Step s (save_answer s attempt_id student_id qid ans tsp now).1
  | submit (s : Store) (attempt_id student_id : String) (now : Nat) :
      Step s (submit_attempt s attempt_id student_id now).1

/-- Stores reachable through Start, RecordAnswer and Submit from a store
with no attempts. -/
inductive Reach : Store → Prop where
  | init (tests : List (String × Test)) (questions : List (String × Question)) :
      Reach (Store.mk tests questions [])
  | step {s s2 : Store} : Reach s → Step s s2 → Reach s2

/-! Claim-side scoring counts, written from the words of the spec: a pair
counts toward total when its question id resolves to a question, and
toward raw when additionally the trimmed string representations agree. -/

/-- The pair resolves to a question. -/
def specResolved (questions : List (String × Question)) (p : String × Value) : Bool :=
  (findById questions p.1).isSome

/-- The pair resolves and the trimmed string representations agree. -/
def specMatched (questions : List (String × Question)) (p : String × Value) : Bool :=
  match findById questions p.1 with
  | none => false
  | some q => answerMatches p.2 q.correct

/-- Count of answered pairs that resolve to a real question. -/
def specTotal (questions : List (String × Question)) (answers : List (String × Value)) : Nat :=
  (answers.filter (specResolved questions)).length

/-- Count of answered pairs scored as correct. -/
def specRaw (questions : List (String × Question)) (answers : List (String × Value)) : Nat :=
  (answers.filter (specMatched questions)).length

lemma scoreLoop_spec (questions : List (String × Question)) :
    ∀ (answers : List (String × Value)) (t r : Nat),
      (∀ p ∈ answers, isValidObjectId p.1 = true) →
      scoreLoop questions answers t r =
        .ok (t + specTotal questions answers, r + specRaw questions answers) := by
  intro answers
  induction answers with
  | nil => intro t r _; simp [scoreLoop, specTotal, specRaw]
  | cons hd tl ih =>
    intro t r h
    rcases hd with ⟨qid, ans⟩
    have hq : isValidObjectId qid = true := h (qid, ans) (by simp)
    have htl : ∀ p ∈ tl, isValidObjectId p.1 = true := fun p hp => h p (by simp [hp])
    cases hfound : findById questions qid with
    | none =>
      rw [show scoreLoop questions ((qid, ans) :: tl) t r = scoreLoop questions tl t r by
            simp [scoreLoop, hq, hfound]]
      rw [ih t r htl]
      simp [specTotal, specRaw, specResolved, specMatched, List.filter_cons, hfound]
    | some q =>
      cases hm : answerMatches ans q.correct with
      | false =>
        rw [show scoreLoop questions ((qid, ans) :: tl) t r = scoreLoop questions tl (t + 1) r by
              simp [scoreLoop, hq, hfound, hm]]
        rw [ih (t + 1) r htl]
        simp only [Except.ok.injEq, Prod.mk.injEq, specTotal, specRaw,
          List.filter_cons, specResolved, specMatched, hfound, hm]
        simp
        omega
      | true =>
        rw [show scoreLoop questions ((qid, ans) :: tl) t r =
              scoreLoop questions tl (t + 1) (r + 1) by
              simp [scoreLoop, hq, hfound, hm]]
        rw [ih (t + 1) (r + 1) htl]
        simp only [Except.ok.injEq, Prod.mk.injEq, specTotal, specRaw,
          List.filter_cons, specResolved, specMatched, hfound, hm]
        simp
        omega

/-- C1 (amended): provided every question id appearing in the answers
mapping is a well-formed 24-hex object id, the scoring of Submit yields a
Score in which a pair that resolves to no question is skipped, total counts
the pairs that resolve, raw counts those whose trimmed string
representation of the submitted answer equals that of the correct field,
and percent is round(raw / total * 100, 2) when total is positive, else 0. -/
theorem score_answers_spec (questions : List (String × Question))
    (answers : List (String × Value))
    (h : ∀ p ∈ answers, isValidObjectId p.1 = true) :
    score_answers questions answers =
      .ok { raw := specRaw questions answers,
            total := specTotal questions answers,
            percent := if specTotal questions answers = 0 then 0
                       else pyRound2 ((specRaw questions answers : ℚ) /
                                      (specTotal questions answers : ℚ) * 100) } := by
  rw [score_answers, scoreLoop_spec questions answers 0 0 h]
  simp [mkScore]

/-- C1 counterexample: with an answers key that is not a well-formed object
id, scoring raises InvalidId instead of skipping the unresolvable pair, so
it does not produce the Score {raw 0, total 0, percent 0} the claim
prescribes for this input. -/
theorem score_answers_invalid_key_raises :
    score_answers [] [("x", Value.vstr "1")] = .error .invalidId ∧
    score_answers [] [("x", Value.vstr "1")] ≠
      .ok { raw := 0, total := 0, percent := 0 } := by
  constructor
  · decide
  · decide

/-- C1 witness: the cross-type example of the spec, with well-formed ids.
Both a submitted string "2" against correct integer 2 and a submitted
string "B" against correct string "B" score as correct, giving percent
100. -/
theorem score_answers_spec_witness :
    score_answers
      [("aaaaaaaaaaaaaaaaaaaaaaaa", { correct := Value.vint 2 }),
       ("bbbbbbbbbbbbbbbbbbbbbbbb", { correct := Value.vstr "B" })]
      [("aaaaaaaaaaaaaaaaaaaaaaaa", Value.vstr "2"),
       ("bbbbbbbbbbbbbbbbbbbbbbbb", Value.vstr "B")] =
      .ok { raw := 2, total := 2, percent := 100 } := by
  have h := score_answers_spec
    [("aaaaaaaaaaaaaaaaaaaaaaaa", { correct := Value.vint 2 }),
     ("bbbbbbbbbbbbbbbbbbbbbbbb", { correct := Value.vstr "B" })]
    [("aaaaaaaaaaaaaaaaaaaaaaaa", Value.vstr "2"),
     ("bbbbbbbbbbbbbbbbbbbbbbbb", Value.vstr "B")]
    (by decide)
  have hraw : specRaw
      [("aaaaaaaaaaaaaaaaaaaaaaaa", { correct := Value.vint 2 }),
       ("bbbbbbbbbbbbbbbbbbbbbbbb", { correct := Value.vstr "B" })]
      [("aaaaaaaaaaaaaaaaaaaaaaaa", Value.vstr "2"),
       ("bbbbbbbbbbbbbbbbbbbbbbbb", Value.vstr "B")] = 2 := by decide
  have htot : specTotal
      [("aaaaaaaaaaaaaaaaaaaaaaaa", { correct := Value.vint 2 }),
       ("bbbbbbbbbbbbbbbbbbbbbbbb", { correct := Value.vstr "B" })]
      [("aaaaaaaaaaaaaaaaaaaaaaaa", Value.vstr "2"),
       ("bbbbbbbbbbbbbbbbbbbbbbbb", Value.vstr "B")] = 2 := by decide
  rw [h, hraw, htot]
  simp only [Except.ok.injEq, Score.mk.injEq, true_and]
  rw [if_neg (by norm_num : ¬ ((2 : ℕ) = 0))]
  rw [show (((2 : ℕ) : ℚ) / ((2 : ℕ) : ℚ) * 100) = 100 by norm_num]
  unfold pyRound2
  rw [show ⌊(100 : ℚ) * 100 + 1/2⌋ = 10000 from Int.floor_eq_iff.mpr (by norm_num)]
  norm_num


/-! General helper lemmas. -/

lemma pyRound2_eval (q : ℚ) (z : ℤ) (h1 : (z : ℚ) ≤ q * 100 + 1/2)
    (h2 : q * 100 + 1/2 < z + 1) : pyRound2 q = (z : ℚ) / 100 := by
  unfold pyRound2
  rw [Int.floor_eq_iff.mpr ⟨h1, h2⟩]

lemma findById_append_left {l l2 : List (String × α)} {i : String} {a : α}
    (h : findById l i = some a) : findById (l ++ l2) i = some a := by
  induction l with
  | nil => simp [findById] at h
  | cons hd tl ih =>
    rcases hd with ⟨k, v⟩
    by_cases hk : k = i
    · rw [List.cons_append, findById, if_pos hk]
      rw [findById, if_pos hk] at h
      exact h
    · rw [List.cons_append, findById, if_neg hk]
      rw [findById, if_neg hk] at h
      exact ih h

lemma findById_dictUpdate (l : List (String × α)) (i : String) (f : α → α) :
    findById (dictUpdate i f l) i = (findById l i).map f := by
  induction l with
  | nil => simp [findById, dictUpdate]
  | cons hd tl ih =>
    rcases hd with ⟨k, v⟩
    by_cases hk : k = i
    · simp [findById, dictUpdate, hk]
    · simp [findById, dictUpdate, hk, ih]

lemma findById_dictUpdate_ne (l : List (String × α)) {i j : String} (f : α → α)
    (h : j ≠ i) : findById (dictUpdate i f l) j = findById l j := by
  induction l with
  | nil => simp [dictUpdate]
  | cons hd tl ih =>
    rcases hd with ⟨k, v⟩
    by_cases hk : k = i
    · subst hk
      have hkj : ¬ (k = j) := fun e => h e.symm
      simp [findById, dictUpdate, hkj]
    · by_cases hkj : k = j
      · simp [findById, dictUpdate, hk, hkj, h]
      · simp [findById, dictUpdate, hk, hkj, ih]

lemma dictUpdate_map_fst (l : List (String × α)) (i : String) (f : α → α) :
    (dictUpdate i f l).map Prod.fst = l.map Prod.fst := by
  induction l with
  | nil => simp [dictUpdate]
  | cons hd tl ih =>
    rcases hd with ⟨k, v⟩
    by_cases hk : k = i
    · simp [dictUpdate, hk]
    · simp [dictUpdate, hk, ih]

lemma dictSet_idem (k : String) (v : α) (l : List (String × α)) :
    dictSet k v (dictSet k v l) = dictSet k v l := by
  induction l with
  | nil => simp [dictSet]
  | cons hd tl ih =>
    rcases hd with ⟨k2, v2⟩
    by_cases hk : k2 = k
    · simp [dictSet, hk]
    · simp [dictSet, hk, ih]

lemma dictSet_map_fst (k : String) (v : α) (l : List (String × α)) :
    (dictSet k v l).map Prod.fst =
      if k ∈ l.map Prod.fst then l.map Prod.fst else l.map Prod.fst ++ [k] := by
  induction l with
  | nil => simp [dictSet]
  | cons hd tl ih =>
    rcases hd with ⟨k2, v2⟩
    by_cases hk : k2 = k
    · subst hk; simp [dictSet]
    · have hne : ¬ (k = k2) := fun e => hk e.symm
      by_cases hmem : k ∈ tl.map Prod.fst
      · simp [dictSet, hk, ih, hmem, hne]
      · simp [dictSet, hk, ih, hmem, hne]

lemma dictSet_map_fst_nodup (k : String) (v : α) {l : List (String × α)}
    (h : (l.map Prod.fst).Nodup) : ((dictSet k v l).map Prod.fst).Nodup := by
  rw [dictSet_map_fst]
  by_cases hmem : k ∈ l.map Prod.fst
  · simpa [hmem] using h
  · simp only [hmem, if_false]
    refine List.Nodup.append h (List.nodup_singleton k) ?_
    intro a ha hb
    simp only [List.mem_singleton] at hb
    exact hmem (hb ▸ ha)

lemma dictErase_dictSet (k : String) (v : α) (l : List (String × α)) :
    dictErase k (dictSet k v l) = dictErase k l := by
  induction l with
  | nil => simp [dictSet, dictErase]
  | cons hd tl ih =>
    rcases hd with ⟨k2, v2⟩
    by_cases hk : k2 = k
    · simp [dictSet, dictErase, hk]
    · simp [dictSet, dictErase, hk, ih]

lemma lookupOwned_of_findById {l : List (String × Attempt)} {i sid : String} {a : Attempt}
    (h : findById l i = some a) (hs : a.student_id = sid) : lookupOwned l i sid = some a := by
  induction l with
  | nil => simp [findById] at h
  | cons hd tl ih =>
    rcases hd with ⟨k, b⟩
    by_cases hk : k = i
    · rw [findById, if_pos hk] at h
      injection h with h
      subst h
      rw [lookupOwned, if_pos ⟨hk, hs⟩]
    · rw [findById, if_neg hk] at h
      rw [lookupOwned, if_neg (fun hc => hk hc.1)]
      exact ih h

lemma lookupOwned_none_of_other {l : List (String × Attempt)} {i A B : String}
    (hA : ∀ p ∈ l, p.1 = i → p.2.student_id = A) (hB : B ≠ A) :
    lookupOwned l i B = none := by
  induction l with
  | nil => rfl
  | cons hd tl ih =>
    rcases hd with ⟨k, a⟩
    have htl : ∀ p ∈ tl, p.1 = i → p.2.student_id = A :=
      fun p hp => hA p (List.mem_cons_of_mem _ hp)
    by_cases hk : k = i ∧ a.student_id = B
    · exfalso
      have hAa : a.student_id = A := hA (k, a) (List.mem_cons_self _ _) hk.1
      exact hB (hk.2.symm.trans hAa)
    · rw [lookupOwned, if_neg hk]
      exact ih htl

lemma findById_of_mem_nodup {l : List (String × α)} {p : String × α}
    (hnd : (l.map Prod.fst).Nodup) (hp : p ∈ l) : findById l p.1 = some p.2 := by
  induction l with
  | nil => simp at hp
  | cons hd tl ih =>
    rcases hd with ⟨k, v⟩
    simp only [List.map_cons, List.nodup_cons] at hnd
    rcases List.mem_cons.mp hp with he | hm
    · subst he
      rw [findById, if_pos rfl]
    · have hk : ¬ (k = p.1) := by
        intro e
        exact hnd.1 (e ▸ List.mem_map_of_mem Prod.fst hm)
      rw [findById, if_neg hk]
      exact ih hnd.2 hm

/-- C2 counterexample: a test whose structure is present but whose
sections mapping is missing the RW section makes the resolver raise a
KeyError instead of producing the defaulted 4-entry timer mapping the
claim prescribes. -/
theorem resolve_timers_missing_section_fails :
    resolve_timers { test_structure := some { sections := some [] } } = .error .keyError ∧
    resolve_timers { test_structure := some { sections := some [] } } ≠
      .ok [("RW-1", 1920), ("RW-2", 1920), ("Math-1", 2100), ("Math-2", 2100)] := by
  exact ⟨by decide, by decide⟩

/-- C2 (amended): when the whole structure mapping is absent the default
structure is used, and whenever the structure in effect carries a sections
mapping with both RW and Math sections, each with a modules list of at
least 2 entries, the resolver succeeds with exactly the 4 timer keys, each
module defaulting its duration to 1920 (RW) or 2100 (Math) only when the
duration field itself is missing; a present structure missing the sections
key, a section, a modules list, or a module entry raises KeyError or
IndexError instead. -/
theorem resolve_timers_spec (t : Test) (secs : List (String × SectionDoc))
    (rwSec mathSec : SectionDoc) (rwMods mathMods : List ModuleDoc)
    (r1 r2 m1 m2 : ModuleDoc)
    (hs : (t.test_structure.getD defaultStructure).sections = some secs)
    (hrw : findById secs "RW" = some rwSec)
    (hma : findById secs "Math" = some mathSec)
    (hrwm : rwSec.modules = some rwMods)
    (hmam : mathSec.modules = some mathMods)
    (h0 : rwMods[0]? = some r1) (h1 : rwMods[1]? = some r2)
    (h2 : mathMods[0]? = some m1) (h3 : mathMods[1]? = some m2) :
    resolve_timers t =
      .ok [("RW-1", r1.duration.getD 1920), ("RW-2", r2.duration.getD 1920),
           ("Math-1", m1.duration.getD 2100), ("Math-2", m2.duration.getD 2100)] := by
  simp only [resolve_timers, moduleDuration, hs, hrw, hma, hrwm, hmam, h0, h1, h2, h3]

/-- C2 witness: a test with no structure resolves through the default
structure to the four documented defaults. -/
theorem resolve_timers_spec_witness :
    resolve_timers {} =
      .ok [("RW-1", 1920), ("RW-2", 1920), ("Math-1", 2100), ("Math-2", 2100)] := by
  have h := resolve_timers_spec ({} : Test)
    [("RW", { modules := some [{ duration := some 1920 }, { duration := some 1920 }] }),
     ("Math", { modules := some [{ duration := some 2100 }, { duration := some 2100 }] })]
    { modules := some [{ duration := some 1920 }, { duration := some 1920 }] }
    { modules := some [{ duration := some 2100 }, { duration := some 2100 }] }
    [{ duration := some 1920 }, { duration := some 1920 }]
    [{ duration := some 2100 }, { duration := some 2100 }]
    { duration := some 1920 } { duration := some 1920 }
    { duration := some 2100 } { duration := some 2100 }
    (by decide) (by decide) (by decide) (by decide) (by decide)
    (by decide) (by decide) (by decide) (by decide)
  exact h.trans (by decide)

/-- C3 counterexample: a start request naming a test id that is not a
well-formed object id refers to no existing test, yet it raises InvalidId
rather than failing with the NotFound the claim prescribes. -/
theorem start_attempt_invalid_id_not_notFound :
    start_attempt {} "zz" "stu" "cccccccccccccccccccccccc" = ({}, .error .invalidId) ∧
    Err.invalidId ≠ Err.notFound := by
  exact ⟨by decide, by decide⟩

/-- C3 (amended): for a start request whose test id is a well-formed
object id: when no test with that id exists the request fails with
NotFound and the store, hence the attempt collection, is unchanged; when
the test exists and its structure resolves, a new Attempt is appended
under the generated id, in in_progress state with empty answers and
time_spent, and its id and the timer mapping are returned; when the test
exists but its structure raises, that error propagates and no attempt is
created. -/
theorem start_attempt_spec (s : Store) (test_id student_id new_id : String)
    (hv : isValidObjectId test_id = true) :
    (findById s.tests test_id = none →
      start_attempt s test_id student_id new_id = (s, .error .notFound)) ∧
    (∀ t timers, findById s.tests test_id = some t → resolve_timers t = .ok timers →
      start_attempt s test_id student_id new_id =
        ({ s with attempts := s.attempts ++ [(new_id, mkAttempt student_id test_id timers)] },
         .ok (new_id, timers))) ∧
    (∀ t e, findById s.tests test_id = some t → resolve_timers t = .error e →
      start_attempt s test_id student_id new_id = (s, .error e)) ∧
    (∀ timers, (mkAttempt student_id test_id timers).status = .in_progress ∧
      (mkAttempt student_id test_id timers).answers = [] ∧
      (mkAttempt student_id test_id timers).time_spent = [] ∧
      (mkAttempt student_id test_id timers).score = none ∧
      (mkAttempt student_id test_id timers).student_id = student_id ∧
      (mkAttempt student_id test_id timers).test_id = test_id ∧
      (mkAttempt student_id test_id timers).timers = timers) := by
  refine ⟨?_, ?_, ?_, ?_⟩
  · intro hnone
    simp [start_attempt, hv, hnone]
  · intro t timers ht htm
    simp [start_attempt, hv, ht, htm]
  · intro t e ht htm
    simp [start_attempt, hv, ht, htm]
  · intro timers
    refine ⟨rfl, rfl, rfl, rfl, rfl, rfl, rfl⟩

/-- C3 witness: starting on an existing test with the default structure
creates the attempt and returns its id with the resolved timers. -/
theorem start_attempt_spec_witness :
    start_attempt { tests := [("aaaaaaaaaaaaaaaaaaaaaaaa", {})] }
        "aaaaaaaaaaaaaaaaaaaaaaaa" "stu" "cccccccccccccccccccccccc" =
      ({ tests := [("aaaaaaaaaaaaaaaaaaaaaaaa", {})],
         attempts := [("cccccccccccccccccccccccc",
           mkAttempt "stu" "aaaaaaaaaaaaaaaaaaaaaaaa"
             [("RW-1", 1920), ("RW-2", 1920), ("Math-1", 2100), ("Math-2", 2100)])] },
       .ok ("cccccccccccccccccccccccc",
            [("RW-1", 1920), ("RW-2", 1920), ("Math-1", 2100), ("Math-2", 2100)])) := by
  have h := (start_attempt_spec { tests := [("aaaaaaaaaaaaaaaaaaaaaaaa", {})] }
      "aaaaaaaaaaaaaaaaaaaaaaaa" "stu" "cccccccccccccccccccccccc" (by decide)).2.1
      ({} : Test) [("RW-1", 1920), ("RW-2", 1920), ("Math-1", 2100), ("Math-2", 2100)]
      (by decide) (by decide)
  exact h.trans (by decide)

/-- C10: with an id string that is not 24 hex characters, each of Start,
RecordAnswer and Submit raises the InvalidId exception, independently of
the store contents (the ownership and existence lookups are never
consulted), leaves the store unchanged, and in particular does not return
the NotFound error. -/
theorem malformed_id_raises (s : Store) (bad student_id new_id qid : String)
    (ans : Value) (tsp : Int) (n1 n2 : Nat)
    (hv : isValidObjectId bad = false) :
    start_attempt s bad student_id new_id = (s, .error .invalidId) ∧
    save_answer s bad student_id qid ans tsp n1 = (s, .error .invalidId) ∧
    submit_attempt s bad student_id n2 = (s, .error .invalidId) ∧
    Err.invalidId ≠ Err.notFound := by
  refine ⟨?_, ?_, ?_, by decide⟩ <;>
    simp [start_attempt, save_answer, submit_attempt, hv]

/-- C10 witness: the malformed id "zz" raises InvalidId on all three
operations over the empty store. -/
theorem malformed_id_raises_witness :
    start_attempt {} "zz" "stu" "cccccccccccccccccccccccc" = ({}, .error .invalidId) ∧
    save_answer {} "zz" "stu" "q1" (Value.vstr "1") 5 0 = ({}, .error .invalidId) ∧
    submit_attempt {} "zz" "stu" 0 = ({}, .error .invalidId) ∧
    Err.invalidId ≠ Err.notFound := by
  exact malformed_id_raises {} "zz" "stu" "cccccccccccccccccccccccc" "q1"
    (Value.vstr "1") 5 0 0 (by decide)

/-- C4: an attempt owned by student A is invisible to RecordAnswer and
Submit calls authenticated as a different student B: both fail with
NotFound, never Forbidden (no such outcome exists in these handlers), and
the store is returned unchanged, because the lookup filters by both the
attempt id and the requesting student id. -/
theorem attempt_ownership (s : Store) (attempt_id A B qid : String) (ans : Value)
    (tsp : Int) (n1 n2 : Nat) (a : Attempt)
    (hv : isValidObjectId attempt_id = true)
    (hex : findById s.attempts attempt_id = some a)
    (hown : a.student_id = A)
    (hA : ∀ p ∈ s.attempts, p.1 = attempt_id → p.2.student_id = A)
    (hB : B ≠ A) :
    save_answer s attempt_id B qid ans tsp n1 = (s, .error .notFound) ∧
    submit_attempt s attempt_id B n2 = (s, .error .notFound) := by
  have hnone := lookupOwned_none_of_other hA hB
  constructor <;> simp [save_answer, submit_attempt, hv, hnone]

/-- C4 witness: an attempt of student alice is NotFound for student bob on
both RecordAnswer and Submit, and the store is untouched. -/
theorem attempt_ownership_witness :
    save_answer
        { attempts := [("dddddddddddddddddddddddd",
            { student_id := "alice", test_id := "aaaaaaaaaaaaaaaaaaaaaaaa" })] }
        "dddddddddddddddddddddddd" "bob" "q1" (Value.vstr "1") 5 0 =
      ({ attempts := [("dddddddddddddddddddddddd",
            { student_id := "alice", test_id := "aaaaaaaaaaaaaaaaaaaaaaaa" })] },
       .error .notFound) ∧
    submit_attempt
        { attempts := [("dddddddddddddddddddddddd",
            { student_id := "alice", test_id := "aaaaaaaaaaaaaaaaaaaaaaaa" })] }
        "dddddddddddddddddddddddd" "bob" 1 =
      ({ attempts := [("dddddddddddddddddddddddd",
            { student_id := "alice", test_id := "aaaaaaaaaaaaaaaaaaaaaaaa" })] },
       .error .notFound) := by
  exact attempt_ownership
    { attempts := [("dddddddddddddddddddddddd",
        { student_id := "alice", test_id := "aaaaaaaaaaaaaaaaaaaaaaaa" })] }
    "dddddddddddddddddddddddd" "alice" "bob" "q1" (Value.vstr "1") 5 0 1
    { student_id := "alice", test_id := "aaaaaaaaaaaaaaaaaaaaaaaa" }
    (by decide) (by decide) rfl (by decide) (by decide)

/-- C5: the teacher report returns the number of the students attempts as
count, and as average the mean of the attempts score percents rounded to 2
decimals, a scoreless attempt contributing 0 while still being counted;
with zero attempts it returns (0, 0). The store layer that persists
attempts is not in src/ and is modelled from the spec with unpopulated
optional fields absent. Concretely: percents 100 and 50 average to 75, and
a scoreless attempt next to a percent-100 attempt averages to 50. -/
theorem teacher_report_spec (s : Store) (student_id : String) :
    (teacher_report s student_id =
      ((studentAttempts s student_id).length,
       if (studentAttempts s student_id).length = 0 then 0
       else pyRound2 (((studentAttempts s student_id).map attemptPercent).sum /
                      ((studentAttempts s student_id).length : ℚ)))) ∧
    (teacher_report
      { attempts := [
          ("a1", { student_id := "s1", test_id := "t", status := .submitted,
                   score := some { raw := 10, total := 10, percent := 100 } }),
          ("a2", { student_id := "s1", test_id := "t", status := .submitted,
                   score := some { raw := 5, total := 10, percent := 50 } }),
          ("a3", { student_id := "s2", test_id := "t", status := .submitted,
                   score := some { raw := 0, total := 10, percent := 0 } })] } "s1"
      = (2, 75)) ∧
    (teacher_report {} "s1" = (0, 0)) ∧
    (teacher_report
      { attempts := [
          ("a1", { student_id := "s1", test_id := "t", status := .submitted,
                   score := some { raw := 10, total := 10, percent := 100 } }),
          ("a2", { student_id := "s1", test_id := "t" })] } "s1"
      = (2, 50)) := by
  refine ⟨?_, ?_, by decide, ?_⟩
  · have hfun : ∀ a : Attempt, ((a.score.map Score.percent).getD 0) = attemptPercent a := by
      intro a
      cases h : a.score <;> simp [attemptPercent, h]
    simp only [teacher_report, studentAttempts, hfun]
  · simp only [teacher_report]
    norm_num [List.filter, List.map, List.sum]
    rw [pyRound2_eval 75 7500 (by norm_num) (by norm_num)]
    norm_num
  · simp only [teacher_report]
    norm_num [List.filter, List.map, List.sum]
    rw [pyRound2_eval 50 5000 (by norm_num) (by norm_num)]
    norm_num

lemma save_answer_success (s : Store) (attempt_id student_id qid : String) (ans : Value)
    (tsp : Int) (now : Nat) (a : Attempt)
    (hv : isValidObjectId attempt_id = true)
    (hfind : findById s.attempts attempt_id = some a)
    (hstu : a.student_id = student_id) :
    save_answer s attempt_id student_id qid ans tsp now =
      ({ s with attempts := dictUpdate attempt_id (saveF qid ans tsp now) s.attempts },
       .ok ()) := by
  have h := lookupOwned_of_findById hfind hstu
  simp [save_answer, hv, h]

/-- C7: a successful RecordAnswer call leaves the attempts timers mapping
untouched, as well as its student id, test id, status, score, started and
submitted timestamps; only the answers entry and time_spent entry for the
given question id and the last-modified timestamp change, and every other
attempt document is untouched. -/
theorem save_answer_frame (s : Store) (attempt_id student_id qid : String) (ans : Value)
    (tsp : Int) (now : Nat) (a : Attempt)
    (hv : isValidObjectId attempt_id = true)
    (hfind : findById s.attempts attempt_id = some a)
    (hstu : a.student_id = student_id) :
    (save_answer s attempt_id student_id qid ans tsp now).2 = .ok () ∧
    findById (save_answer s attempt_id student_id qid ans tsp now).1.attempts attempt_id =
      some (saveF qid ans tsp now a) ∧
    (∀ b, findById (save_answer s attempt_id student_id qid ans tsp now).1.attempts attempt_id
        = some b →
      b.timers = a.timers ∧ b.student_id = a.student_id ∧ b.test_id = a.test_id ∧
      b.status = a.status ∧ b.score = a.score ∧ b.started_at = a.started_at ∧
      b.submitted_at = a.submitted_at ∧
      b.answers = dictSet qid ans a.answers ∧
      b.time_spent = dictSet qid tsp a.time_spent ∧
      b.updated_at = some now ∧
      dictErase qid b.answers = dictErase qid a.answers ∧
      dictErase qid b.time_spent = dictErase qid a.time_spent) ∧
    (∀ i, i ≠ attempt_id →
      findById (save_answer s attempt_id student_id qid ans tsp now).1.attempts i =
        findById s.attempts i) := by
  have h := save_answer_success s attempt_id student_id qid ans tsp now a hv hfind hstu
  have hf : findById (save_answer s attempt_id student_id qid ans tsp now).1.attempts
      attempt_id = some (saveF qid ans tsp now a) := by
    rw [h, findById_dictUpdate, hfind]
    rfl
  refine ⟨by rw [h], hf, ?_, ?_⟩
  · intro b hb
    rw [hf] at hb
    injection hb with hb
    subst hb
    refine ⟨rfl, rfl, rfl, rfl, rfl, rfl, rfl, rfl, rfl, rfl, ?_, ?_⟩
    · exact dictErase_dictSet qid ans a.answers
    · exact dictErase_dictSet qid tsp a.time_spent
  · intro i hi
    rw [h]
    exact findById_dictUpdate_ne s.attempts _ hi

/-- C7 witness: recording one answer on a fresh attempt succeeds and
updates exactly answers, time_spent and updated_at of that attempt. -/
theorem save_answer_frame_witness :
    (save_answer
        { attempts := [("dddddddddddddddddddddddd",
            { student_id := "stu", test_id := "aaaaaaaaaaaaaaaaaaaaaaaa",
              timers := [("RW-1", 1920)] })] }
        "dddddddddddddddddddddddd" "stu" "q1" (Value.vstr "1") 5 7).2 = .ok () ∧
    findById (save_answer
        { attempts := [("dddddddddddddddddddddddd",
            { student_id := "stu", test_id := "aaaaaaaaaaaaaaaaaaaaaaaa",
              timers := [("RW-1", 1920)] })] }
        "dddddddddddddddddddddddd" "stu" "q1" (Value.vstr "1") 5 7).1.attempts
        "dddddddddddddddddddddddd" =
      some { student_id := "stu", test_id := "aaaaaaaaaaaaaaaaaaaaaaaa",
             timers := [("RW-1", 1920)], answers := [("q1", Value.vstr "1")],
             time_spent := [("q1", 5)], updated_at := some 7 } := by
  have h := save_answer_frame
    { attempts := [("dddddddddddddddddddddddd",
        { student_id := "stu", test_id := "aaaaaaaaaaaaaaaaaaaaaaaa",
          timers := [("RW-1", 1920)] })] }
    "dddddddddddddddddddddddd" "stu" "q1" (Value.vstr "1") 5 7
    { student_id := "stu", test_id := "aaaaaaaaaaaaaaaaaaaaaaaa",
      timers := [("RW-1", 1920)] }
    (by decide) (by decide) rfl
  exact ⟨h.1, h.2.1.trans (by decide)⟩

/-- C6: RecordAnswer is idempotent per question id: repeating the same
call changes nothing but the last-modified timestamp, in particular the
stored answers and time_spent mappings are those of the single call, and
when the attempts mappings had no duplicate keys the updated mappings
still have none. -/
theorem save_answer_idempotent (s : Store) (attempt_id student_id qid : String)
    (ans : Value) (tsp : Int) (n1 n2 : Nat) (a : Attempt)
    (hv : isValidObjectId attempt_id = true)
    (hfind : findById s.attempts attempt_id = some a)
    (hstu : a.student_id = student_id)
    (hna : (a.answers.map Prod.fst).Nodup)
    (hnt : (a.time_spent.map Prod.fst).Nodup) :
    findById (save_answer (save_answer s attempt_id student_id qid ans tsp n1).1
        attempt_id student_id qid ans tsp n2).1.attempts attempt_id =
      (findById (save_answer s attempt_id student_id qid ans tsp n1).1.attempts
        attempt_id).map (fun b => { b with updated_at := some n2 }) ∧
    (∀ b, findById (save_answer s attempt_id student_id qid ans tsp n1).1.attempts attempt_id
        = some b →
      (b.answers.map Prod.fst).Nodup ∧ (b.time_spent.map Prod.fst).Nodup) := by
  have h1 := save_answer_success s attempt_id student_id qid ans tsp n1 a hv hfind hstu
  have hfind1 : findById (save_answer s attempt_id student_id qid ans tsp n1).1.attempts
      attempt_id = some (saveF qid ans tsp n1 a) := by
    rw [h1, findById_dictUpdate, hfind]
    rfl
  have hstu1 : (saveF qid ans tsp n1 a).student_id = student_id := hstu
  have h2 := save_answer_success (save_answer s attempt_id student_id qid ans tsp n1).1
    attempt_id student_id qid ans tsp n2 (saveF qid ans tsp n1 a) hv hfind1 hstu1
  constructor
  · have hkey : saveF qid ans tsp n2 (saveF qid ans tsp n1 a) =
        { saveF qid ans tsp n1 a with updated_at := some n2 } := by
      simp [saveF, dictSet_idem]
    calc findById (save_answer (save_answer s attempt_id student_id qid ans tsp n1).1
          attempt_id student_id qid ans tsp n2).1.attempts attempt_id
        = ((save_answer s attempt_id student_id qid ans tsp n1).1.attempts
            |> dictUpdate attempt_id (saveF qid ans tsp n2)
            |> (findById · attempt_id)) := by rw [h2]
      _ = (findById (save_answer s attempt_id student_id qid ans tsp n1).1.attempts
            attempt_id).map (saveF qid ans tsp n2) := findById_dictUpdate _ _ _
      _ = (some (saveF qid ans tsp n1 a)).map (saveF qid ans tsp n2) := by rw [hfind1]
      _ = some (saveF qid ans tsp n2 (saveF qid ans tsp n1 a)) := rfl
      _ = some { saveF qid ans tsp n1 a with updated_at := some n2 } := congrArg some hkey
      _ = (findById (save_answer s attempt_id student_id qid ans tsp n1).1.attempts
            attempt_id).map (fun b => { b with updated_at := some n2 }) := by
            rw [hfind1]
            rfl
  · intro b hb
    rw [hfind1] at hb
    injection hb with hb
    subst hb
    exact ⟨dictSet_map_fst_nodup qid ans hna, dictSet_map_fst_nodup qid tsp hnt⟩

/-- C6 witness: recording the same answer twice on a fresh attempt leaves
the stored answers and time_spent with the single entry of one call. -/
theorem save_answer_idempotent_witness :
    findById (save_answer (save_answer
        { attempts := [("dddddddddddddddddddddddd",
            { student_id := "stu", test_id := "aaaaaaaaaaaaaaaaaaaaaaaa" })] }
        "dddddddddddddddddddddddd" "stu" "q1" (Value.vstr "1") 5 0).1
        "dddddddddddddddddddddddd" "stu" "q1" (Value.vstr "1") 5 1).1.attempts
        "dddddddddddddddddddddddd" =
      some { student_id := "stu", test_id := "aaaaaaaaaaaaaaaaaaaaaaaa",
             answers := [("q1", Value.vstr "1")], time_spent := [("q1", 5)],
             updated_at := some 1 } := by
  have h := save_answer_idempotent
    { attempts := [("dddddddddddddddddddddddd",
        { student_id := "stu", test_id := "aaaaaaaaaaaaaaaaaaaaaaaa" })] }
    "dddddddddddddddddddddddd" "stu" "q1" (Value.vstr "1") 5 0 1
    { student_id := "stu", test_id := "aaaaaaaaaaaaaaaaaaaaaaaa" }
    (by decide) (by decide) rfl (by decide) (by decide)
  exact h.1.trans (by decide)

/-- C9: RecordAnswer performs no in_progress check: on an attempt already
submitted (and owned by the caller) it still succeeds, upserting the
answers and time_spent entries for the question id and the last-modified
timestamp, instead of failing with any Conflict-style error. -/
theorem record_answer_ignores_submitted (s : Store) (attempt_id student_id qid : String)
    (ans : Value) (tsp : Int) (now : Nat) (a : Attempt)
    (hv : isValidObjectId attempt_id = true)
    (hfind : findById s.attempts attempt_id = some a)
    (hstu : a.student_id = student_id)
    (hsub : a.status = .submitted) :
    (save_answer s attempt_id student_id qid ans tsp now).2 = .ok () ∧
    findById (save_answer s attempt_id student_id qid ans tsp now).1.attempts attempt_id =
      some (saveF qid ans tsp now a) ∧
    (saveF qid ans tsp now a).answers = dictSet qid ans a.answers ∧
    (saveF qid ans tsp now a).time_spent = dictSet qid tsp a.time_spent ∧
    (saveF qid ans tsp now a).updated_at = some now ∧
    (saveF qid ans tsp now a).status = .submitted := by
  have h := save_answer_success s attempt_id student_id qid ans tsp now a hv hfind hstu
  have hf : findById (save_answer s attempt_id student_id qid ans tsp now).1.attempts
      attempt_id = some (saveF qid ans tsp now a) := by
    rw [h, findById_dictUpdate, hfind]
    rfl
  exact ⟨by rw [h], hf, rfl, rfl, rfl, hsub⟩

/-- C9 witness: a submitted attempt still accepts a RecordAnswer write. -/
theorem record_answer_ignores_submitted_witness :
    (save_answer
        { attempts := [("dddddddddddddddddddddddd",
            { student_id := "stu", test_id := "aaaaaaaaaaaaaaaaaaaaaaaa",
              status := .submitted,
              score := some { raw := 0, total := 0, percent := 0 } })] }
        "dddddddddddddddddddddddd" "stu" "q1" (Value.vstr "1") 5 9).2 = .ok () ∧
    findById (save_answer
        { attempts := [("dddddddddddddddddddddddd",
            { student_id := "stu", test_id := "aaaaaaaaaaaaaaaaaaaaaaaa",
              status := .submitted,
              score := some { raw := 0, total := 0, percent := 0 } })] }
        "dddddddddddddddddddddddd" "stu" "q1" (Value.vstr "1") 5 9).1.attempts
        "dddddddddddddddddddddddd" =
      some (saveF "q1" (Value.vstr "1") 5 9
        { student_id := "stu", test_id := "aaaaaaaaaaaaaaaaaaaaaaaa",
          status := .submitted,
          score := some { raw := 0, total := 0, percent := 0 } }) := by
  have h := record_answer_ignores_submitted
    { attempts := [("dddddddddddddddddddddddd",
        { student_id := "stu", test_id := "aaaaaaaaaaaaaaaaaaaaaaaa",
          status := .submitted,
          score := some { raw := 0, total := 0, percent := 0 } })] }
    "dddddddddddddddddddddddd" "stu" "q1" (Value.vstr "1") 5 9
    { student_id := "stu", test_id := "aaaaaaaaaaaaaaaaaaaaaaaa",
      status := .submitted, score := some { raw := 0, total := 0, percent := 0 } }
    (by decide) (by decide) rfl rfl
  exact ⟨h.1, h.2.1⟩

lemma start_attempt_store (s : Store) (tid sid nid : String) :
    (start_attempt s tid sid nid).1 = s ∨
    ∃ timers, (start_attempt s tid sid nid).1 =
      { s with attempts := s.attempts ++ [(nid, mkAttempt sid tid timers)] } := by
  unfold start_attempt
  by_cases hv : isValidObjectId tid = true
  · simp only [hv, if_true]
    cases hf : findById s.tests tid with
    | none => exact Or.inl (by simp [hf])
    | some t =>
      cases hr : resolve_timers t with
      | error e => exact Or.inl (by simp [hf, hr])
      | ok timers => exact Or.inr ⟨timers, by simp [hf, hr]⟩
  · simp only [hv, if_false]
    exact Or.inl rfl

lemma save_answer_store (s : Store) (aid sid qid : String) (ans : Value)
    (tsp : Int) (now : Nat) :
    (save_answer s aid sid qid ans tsp now).1 = s ∨
    (save_answer s aid sid qid ans tsp now).1 =
      { s with attempts := dictUpdate aid (saveF qid ans tsp now) s.attempts } := by
  unfold save_answer
  by_cases hv : isValidObjectId aid = true
  · simp only [hv, if_true]
    cases hf : lookupOwned s.attempts aid sid with
    | none => exact Or.inl (by simp [hf])
    | some a => exact Or.inr (by simp [hf])
  · simp only [hv, if_false]
    exact Or.inl rfl

lemma submit_attempt_store (s : Store) (aid sid : String) (now : Nat) :
    (submit_attempt s aid sid now).1 = s ∨
    ∃ sc, (submit_attempt s aid sid now).1 =
      { s with attempts := dictUpdate aid (submitF sc now) s.attempts } := by
  unfold submit_attempt
  by_cases hv : isValidObjectId aid = true
  · simp only [hv, if_true]
    cases hf : lookupOwned s.attempts aid sid with
    | none => exact Or.inl (by simp [hf])
    | some a =>
      cases hr : score_answers s.questions a.answers with
      | error e => exact Or.inl (by simp [hf, hr])
      | ok sc => exact Or.inr ⟨sc, by simp [hf, hr]⟩
  · simp only [hv, if_false]
    exact Or.inl rfl

lemma all_snd_dictUpdate (P : α → Bool) (k : String) (f : α → α)
    {l : List (String × α)}
    (hf : ∀ a, P a = true → P (f a) = true)
    (h : l.all (fun p => P p.2) = true) :
    (dictUpdate k f l).all (fun p => P p.2) = true := by
  induction l with
  | nil => simp [dictUpdate]
  | cons hd tl ih =>
    rcases hd with ⟨k2, v⟩
    simp only [List.all_cons, Bool.and_eq_true] at h
    by_cases hk : k2 = k
    · simp only [dictUpdate, hk, if_true, List.all_cons, Bool.and_eq_true]
      exact ⟨hf v h.1, h.2⟩
    · simp only [dictUpdate, hk, if_false, List.all_cons, Bool.and_eq_true]
      exact ⟨h.1, ih h.2⟩

lemma invB_step {s s2 : Store} (hst : Step s s2) (h : InvB s = true) : InvB s2 = true := by
  cases hst with
  | start tid sid nid hfresh =>
    rcases start_attempt_store s tid sid nid with he | ⟨timers, he⟩
    · rw [he]; exact h
    · rw [he]
      unfold InvB at h ⊢
      simp only [List.all_append, Bool.and_eq_true]
      exact ⟨h, by simp [mkAttempt]⟩
  | save aid sid qid ans tsp now =>
    rcases save_answer_store s aid sid qid ans tsp now with he | he
    · rw [he]; exact h
    · rw [he]
      unfold InvB at h ⊢
      exact all_snd_dictUpdate
        (fun a => a.score.isSome == decide (a.status = AttemptStatus.submitted))
        aid (saveF qid ans tsp now) (fun a ha => ha) h
  | submit aid sid now =>
    rcases submit_attempt_store s aid sid now with he | ⟨sc, he⟩
    · rw [he]; exact h
    · rw [he]
      unfold InvB at h ⊢
      exact all_snd_dictUpdate
        (fun a => a.score.isSome == decide (a.status = AttemptStatus.submitted))
        aid (submitF sc now) (fun a _ => by simp [submitF]) h

lemma reach_inv {s : Store} (h : Reach s) : InvB s = true := by
  induction h with
  | init tests questions => rfl
  | step hr hst ih => exact invB_step hst ih

lemma reach_nodup {s : Store} (h : Reach s) : (s.attempts.map Prod.fst).Nodup := by
  induction h with
  | init tests questions => simp
  | @step s1 s2 hr hst ih =>
    cases hst with
    | start tid sid nid hfresh =>
      rcases start_attempt_store s1 tid sid nid with he | ⟨timers, he⟩
      · rw [he]; exact ih
      · rw [he]
        simp only [List.map_append, List.map_cons, List.map_nil]
        refine List.Nodup.append ih (List.nodup_singleton _) ?_
        intro x hx hb
        simp only [List.mem_singleton] at hb
        subst hb
        exact hfresh hx
    | save aid sid qid ans tsp now =>
      rcases save_answer_store s1 aid sid qid ans tsp now with he | he
      · rw [he]; exact ih
      · rw [he]
        simpa [dictUpdate_map_fst] using ih
    | submit aid sid now =>
      rcases submit_attempt_store s1 aid sid now with he | ⟨sc, he⟩
      · rw [he]; exact ih
      · rw [he]
        simpa [dictUpdate_map_fst] using ih

lemma forward_of_step {s s2 : Store} (hnd : (s.attempts.map Prod.fst).Nodup)
    (hst : Step s s2) : ForwardB s s2 = true := by
  rw [ForwardB, List.all_eq_true]
  intro p hp
  by_cases hsub : p.2.status = AttemptStatus.submitted
  · simp only [hsub, decide_True, Bool.not_true, Bool.false_or]
    have hfind : findById s.attempts p.1 = some p.2 := findById_of_mem_nodup hnd hp
    cases hst with
    | start tid sid nid hfresh =>
      rcases start_attempt_store s tid sid nid with he | ⟨timers, he⟩
      · rw [he, hfind]
        simp [hsub]
      · rw [he]
        simp only []
        rw [findById_append_left hfind]
        simp [hsub]
    | save aid sid qid ans tsp now =>
      rcases save_answer_store s aid sid qid ans tsp now with he | he
      · rw [he, hfind]
        simp [hsub]
      · rw [he]
        simp only []
        by_cases hpi : p.1 = aid
        · rw [hpi] at hfind ⊢
          rw [findById_dictUpdate, hfind]
          simp [saveF, hsub]
        · rw [findById_dictUpdate_ne _ _ hpi, hfind]
          simp [hsub]
    | submit aid sid now =>
      rcases submit_attempt_store s aid sid now with he | ⟨sc, he⟩
      · rw [he, hfind]
        simp [hsub]
      · rw [he]
        simp only []
        by_cases hpi : p.1 = aid
        · rw [hpi] at hfind ⊢
          rw [findById_dictUpdate, hfind]
          simp [submitF]
        · rw [findById_dictUpdate_ne _ _ hpi, hfind]
          simp [hsub]
  · simp [hsub]

/-- C8: every store reachable through Start, RecordAnswer and Submit from
a store with no attempts satisfies the invariant that an attempts score is
present exactly when its status is submitted, and each further step only
moves an attempts status forward: one submitted stays submitted, never
reverting to in_progress. -/
theorem attempt_invariants (s : Store) (h : Reach s) :
    InvB s = true ∧ ∀ s2, Step s s2 → ForwardB s s2 = true := by
  exact ⟨reach_inv h, fun s2 hst => forward_of_step (reach_nodup h) hst⟩

/-- C8 witness: the initial store with one test satisfies the invariant
and a concrete start step only moves statuses forward. -/
theorem attempt_invariants_witness :
    InvB { tests := [("aaaaaaaaaaaaaaaaaaaaaaaa", {})] } = true ∧
    ForwardB { tests := [("aaaaaaaaaaaaaaaaaaaaaaaa", {})] }
      (start_attempt { tests := [("aaaaaaaaaaaaaaaaaaaaaaaa", {})] }
        "aaaaaaaaaaaaaaaaaaaaaaaa" "stu" "cccccccccccccccccccccccc").1 = true := by
  have h := attempt_invariants { tests := [("aaaaaaaaaaaaaaaaaaaaaaaa", {})] }
    (Reach.init [("aaaaaaaaaaaaaaaaaaaaaaaa", ({} : Test))] [])
  exact ⟨h.1, h.2 _ (Step.start _ "aaaaaaaaaaaaaaaaaaaaaaaa" "stu"
    "cccccccccccccccccccccccc" (by decide))⟩
